import Mathlib

/-!
Verification of the yesman-agent core (agent lifecycle, sandbox/workspace
manager, security policy, provider registry) against its natural-language
specification.  Python sources are shallowly embedded: dictionaries become
association lists, machine integers become `Int`/`Nat`, Python floats that
are only compared (never accumulated in floating point in a way the claims
depend on) become `ℚ`, exceptions become `Except`, and wall-clock reads are
passed in as explicit `now` parameters.
-/

namespace YesmanAgent

/-! ### Data model — src/libs/claude/interfaces.py -/

/-- Embeds `AgentStatus` (interfaces.py lines 14–21). -/
inductive AgentStatus
  | created
  | running
  | idle
  | error
  | disposed
deriving DecidableEq

/-- Embeds `EventType` (interfaces.py lines 24–33). -/
inductive EventType
  | tool_call
  | edit
  | log
  | status_change
  | task_start
  | task_complete
  | error
deriving DecidableEq

/-- Embeds `AgentConfig` (interfaces.py lines 78–102).  `temperature` is a
Python float used only for comparisons and option merging; it is modelled
as a rational. -/
structure AgentConfig where
  workspace_path : String
  model : String
  allowed_tools : List String
  timeout : Int
  max_tokens : Int
  temperature : ℚ
deriving DecidableEq

/-- Embeds `TaskOptions` (interfaces.py lines 105–113): every field except
`resume_session` is `Optional` in the source. -/
structure TaskOptions where
  tools : Option (List String)
  timeout : Option Int
  max_tokens : Option Int
  temperature : Option ℚ
  resume_session : Bool
deriving DecidableEq

/-- Python truthiness of `x or dflt` for an `Optional[List[...]]` value:
`None` and the empty list are falsy. -/
def pyOrList (x : Option (List String)) (dflt : List String) : List String :=
  match x with
  | none => dflt
  | some l => if l = [] then dflt else l

/-- Python truthiness of `x or dflt` for an `Optional[int]` value: `None`
and `0` are falsy. -/
def pyOrInt (x : Option Int) (dflt : Int) : Int :=
  match x with
  | none => dflt
  | some n => if n = 0 then dflt else n

/-- Embeds `TaskOptions.merge_with_config` (interfaces.py lines 115–123):
`tools`, `timeout` and `max_tokens` merge with Python `or` (truthiness),
while `temperature` merges with an explicit `is not None` check. -/
def TaskOptions.merge_with_config (o : TaskOptions) (c : AgentConfig) : TaskOptions :=
  { tools := some (pyOrList o.tools c.allowed_tools)
    timeout := some (pyOrInt o.timeout c.timeout)
    max_tokens := some (pyOrInt o.max_tokens c.max_tokens)
    temperature := some (match o.temperature with
      | none => c.temperature
      | some t => t)
    resume_session := o.resume_session }

/-! ### Security policy — src/libs/claude/workspace.py `DefaultSecurityPolicy` -/

/-- Python runtime exceptions the embedded code can raise. -/
inductive PyError
  | unboundLocalError (name : String)
  | valueError (msg : String)
  | runtimeError (msg : String)
deriving DecidableEq

/-- Embeds the `dangerous_patterns` regex-source set built inside
`validate_command_execution` (workspace.py lines 422–463).  The source is a
Python `set` literal of raw strings; it is modelled as a list (its
iteration order is irrelevant to every theorem below). -/
def dangerous_patterns : List String :=
  [ "rm\\s+(-rf?|--recursive)\\s+/"
  , "dd\\s+if=/dev/(zero|urandom)"
  , "mkfs\\.[a-z]+"
  , "fdisk\\s+/dev/"
  , "\\bsudo\\b"
  , "\\bsu\\b"
  , "\\bsudo\\s+-i\\b"
  , "chmod\\s+(777|666)"
  , "chown\\s+root"
  , "chgrp\\s+root"
  , "\\biptables\\b"
  , "\\bufw\\b"
  , "\\bfirewalld\\b"
  , "\\bsystemctl\\b"
  , "\\bservice\\s+\\w+\\s+(start|stop|restart)"
  , "/etc/init\\.d/"
  , "\\bapt(-get)?\\s+(install|remove|purge)"
  , "\\byum\\s+(install|remove|erase)"
  , "\\bpip\\s+install\\s+.*--break-system-packages"
  , "\\bmount\\s+"
  , "\\bumount\\s+"
  , "\\blosetup\\s+"
  , "\\bkill\\s+-9\\s+1\\b"
  , "\\bkillall\\s+(init|systemd)"
  , "/etc/(passwd|shadow|sudoers)"
  , "/root/\\.[^\\s]*"
  , "~root/\\.[^\\s]*"
  , "/home/[^/]+/\\.ssh/"
  , "/sys/(kernel|fs|dev)/"
  , "/proc/(sys|1)/" ]

/-- Embeds the `simple_dangerous` substring set (workspace.py lines
476–484).  The third entry is the fork bomb `:(){ :|:& };:`. -/
def simple_dangerous : List String :=
  [ "rm -rf /"
  , "dd if=/dev/zero"
  , ":()\x7b :|:& \x7d;:"
  , "curl | sh"
  , "wget | sh"
  , "| bash"
  , "| sh" ]

/-- Embeds the `injection_patterns` list (workspace.py lines 492–501). -/
def injection_patterns : List String :=
  [ ";", "&&", "||", "`", "$(", ">", ">>", "<" ]

/-- Embeds the `safe_contexts` list (workspace.py lines 504–508). -/
def safe_contexts : List String :=
  [ "echo", "cat >", "tee" ]

/-- Python `needle in haystack` on lists of characters. -/
def listContains (needle : List Char) : List Char → Bool
  | [] => needle.isEmpty
  | c :: rest => needle.isPrefixOf (c :: rest) || listContains needle rest

/-- Python `needle in haystack` on strings. -/
def strContains (haystack needle : String) : Bool :=
  listContains needle.data haystack.data

/-- Python `s.startswith(pre)` (also the semantics of a trailing-`*` glob
match against `s`). -/
def strStartsWith (s pre : String) : Bool :=
  pre.data.isPrefixOf s.data

/-- Python `s.split(sep)` for a one-character separator, on character
lists: splits at every occurrence, keeping empty pieces. -/
def splitOnChar (sep : Char) : List Char → List (List Char)
  | [] => [[]]
  | c :: rest =>
    if c = sep then [] :: splitOnChar sep rest
    else
      match splitOnChar sep rest with
      | [] => [[c]]
      | h :: t => (c :: h) :: t

/-- Python `s.split(sep)` for a one-character separator. -/
def pySplit (s : String) (sep : Char) : List String :=
  (splitOnChar sep s.data).map String.mk

/-- Embeds the `for pattern in dangerous_patterns` loop of
`validate_command_execution` (workspace.py lines 468–471).  The loop body
reads the local `command_lower`; at this point in the source that local has
not yet been assigned (the assignment is on line 473, after the loop), so
it is threaded as an `Option String` that is `none` here, and reading
`none` raises `UnboundLocalError` exactly as CPython does.  `re_search p s`
abstracts Python `re.search(p, s, re.IGNORECASE)`. -/
def scanDangerous (re_search : String → String → Bool) (command_lower : Option String) :
    List String → Except PyError Bool
  | [] => .ok true
  | pattern :: rest =>
    match command_lower with
    | none => .error (.unboundLocalError "command_lower")
    | some cl =>
      if re_search pattern cl then .ok false
      else scanDangerous re_search command_lower rest

/-- Embeds `DefaultSecurityPolicy.validate_command_execution`
(workspace.py lines 411–517).  Control flow of the source: build the
pattern set, loop over it testing `command_lower` (unassigned until line
473), then assign `command_lower = command.lower().strip()`, then the
`simple_dangerous` substring loop, then the injection-pattern check which
only logs a warning and never changes the result, then `return True`. -/
def validate_command_execution (re_search : String → String → Bool)
    (command : String) (agent_id : String) : Except PyError Bool :=
  match scanDangerous re_search none dangerous_patterns with
  | .error e => .error e
  | .ok false => .ok false
  | .ok true =>
    let command_lower := command.toLower.trim
    if simple_dangerous.any (fun d => strContains command_lower d) then
      .ok false
    else
      let has_injection := injection_patterns.any (fun p => strContains command_lower p)
      let has_safe_context := safe_contexts.any (fun ctx => strContains command_lower ctx)
      -- the source only logs when has_injection ∧ ¬has_safe_context ("Don't block entirely")
      let _injection_only_logged := has_injection && !has_safe_context
      .ok true

/-! ### Headless adapter — src/libs/claude/headless_adapter.py -/

/-- Python `str(x)` for an `Optional[int]`. -/
def pyStrOptInt : Option Int → String
  | none => "None"
  | some n => toString n

/-- Embeds the `AgentEvent` envelope (interfaces.py lines 36–61) to the
extent the claims consult it: event type, owning agent id, optional run id,
and the `return_code` entry of the payload dict when present. -/
structure AgentEvent where
  event_type : EventType
  agent_id : String
  run_id : Option String
  data_return_code : Option (Option Int) := none
deriving DecidableEq

/-- Embeds `AgentProcess` (headless_adapter.py lines 24–53).  The
subprocess handle is modelled by `has_process` (whether `current_process`
is non-`None`) and `proc_returncode` (its `returncode` attribute, `none`
while the process is still running).  Timestamps are abstract `Nat`
clock readings. -/
structure AgentProcess where
  agent_id : String
  workspace_path : String
  status : AgentStatus
  created_at : Nat
  has_process : Bool := false
  proc_returncode : Option Int := none
  current_run_id : Option String := none
  last_activity : Option Nat := none
  error_message : Option String := none
deriving DecidableEq

/-- Embeds the `HeadlessAdapter` state (headless_adapter.py lines 56–82):
the `active_agents` dict is an insertion-ordered association list. -/
structure HeadlessAdapter where
  max_concurrent : Nat
  active_agents : List (String × AgentProcess)
deriving DecidableEq

/-- Python dict lookup `d.get(k)` on the association-list model. -/
def lookupAgent : List (String × AgentProcess) → String → Option AgentProcess
  | [], _ => none
  | (k, v) :: rest, id => if k = id then some v else lookupAgent rest id

/-- Python dict item assignment `d[k] = v` for a key already present. -/
def updateAgent : List (String × AgentProcess) → String → AgentProcess →
    List (String × AgentProcess)
  | [], _, _ => []
  | (k, v) :: rest, id, a => if k = id then (k, a) :: rest else (k, v) :: updateAgent rest id a

/-- Outcome of creating a sandbox for `create_agent`: either the sandbox
path, or the message of the exception `create_sandbox` raised. -/
abbrev SandboxOutcome := Except String String

/-- Embeds `HeadlessAdapter.create_agent` (headless_adapter.py lines
84–132).  The fresh `uuid.uuid4()` id and the sandbox-creation outcome are
passed in explicitly; the result pairs the Python return-or-raise with the
adapter state after the call.  At the capacity check nothing has been
stored yet, and when `create_sandbox` raises, the agent id has not yet been
stored either (`agent_id in self.active_agents` is false, so the rollback
branch does not run); both failures leave `active_agents` unchanged. -/
def create_agent (a : HeadlessAdapter) (agent_id : String)
    (sandbox : SandboxOutcome) (now : Nat) :
    Except PyError String × HeadlessAdapter :=
  if a.active_agents.length ≥ a.max_concurrent then
    (.error (.runtimeError ("Maximum concurrent agents limit reached (" ++
      toString a.max_concurrent ++ ")")), a)
  else
    match sandbox with
    | .error e => (.error (.runtimeError ("Agent creation failed: " ++ e)), a)
    | .ok workspace_path =>
      let agent : AgentProcess :=
        { agent_id := agent_id
          workspace_path := workspace_path
          status := .created
          created_at := now }
      (.ok agent_id, { a with active_agents := a.active_agents ++ [(agent_id, agent)] })

/-- Embeds the post-exit section of `HeadlessAdapter._monitor_process`
(headless_adapter.py lines 454–492): capture `return_code`, branch on
`return_code == 0` to set the terminal status and emit the terminal event
(which carries the still-set `current_run_id`), then clear
`current_run_id` and update `last_activity`.  Returns the updated agent
record and the events pushed onto its queue. -/
def monitor_process_exit (agent : AgentProcess) (return_code : Option Int) (now : Nat) :
    AgentProcess × List AgentEvent :=
  if return_code = some 0 then
    let ev : AgentEvent :=
      { event_type := .task_complete
        agent_id := agent.agent_id
        run_id := agent.current_run_id
        data_return_code := some return_code }
    ({ agent with
        status := .idle
        current_run_id := none
        last_activity := some now }, [ev])
  else
    let msg := "Process exited with code " ++ pyStrOptInt return_code
    let ev : AgentEvent :=
      { event_type := .error
        agent_id := agent.agent_id
        run_id := agent.current_run_id
        data_return_code := some return_code }
    ({ agent with
        status := .error
        error_message := some msg
        current_run_id := none
        last_activity := some now }, [ev])

/-- Embeds `HeadlessAdapter.cancel_task` (headless_adapter.py lines
239–292).  `term_code` is the (negative-signal) exit code the subprocess
reports after `terminate()`/`kill()`.  Raising paths are `.error`; the
non-raising paths return the boolean result, the adapter state after the
call, and the events emitted. -/
def cancel_task (a : HeadlessAdapter) (agent_id run_id : String)
    (term_code : Int) (now : Nat) :
    Except PyError (Bool × HeadlessAdapter × List AgentEvent) :=
  match lookupAgent a.active_agents agent_id with
  | none => .error (.valueError ("Agent " ++ agent_id ++ " not found"))
  | some agent =>
    if agent.current_run_id ≠ some run_id then
      .error (.valueError ("Run " ++ run_id ++ " not found for agent " ++ agent_id))
    else if agent.has_process ∧ agent.proc_returncode = none then
      let agent' : AgentProcess :=
        { agent with
            proc_returncode := some term_code
            status := .idle
            current_run_id := none
            last_activity := some now }
      let ev : AgentEvent :=
        { event_type := .status_change
          agent_id := agent.agent_id
          run_id := some run_id }
      .ok (true, { a with active_agents := updateAgent a.active_agents agent_id agent' }, [ev])
    else
      .ok (false, a, [])

/-! ### Workspace manager — src/libs/claude/workspace.py `DefaultWorkspaceManager` -/

/-- A directory under the workspace base path as the sweep, stats and
quota code see it: name, mtime (seconds), the regular files inside it as
relative-path/size-in-bytes pairs, whether the `temp/` subdirectory
exists, and whether walking/stat-ing the tree succeeds.  The `README.md`
and `.gitignore` written at creation are ordinary `files` entries; no
claim consults their contents. -/
structure SandboxDir where
  name : String
  mtime : Nat
  files : List (String × Nat) := []
  temp_exists : Bool := true
  stat_ok : Bool := true
deriving DecidableEq

/-- The `DefaultWorkspaceManager` state: resolved base path, the
directories on disk under it, and the `active_sandboxes` set of live
agent ids (a Python set, modelled as a duplicate-free insertion-ordered
list). -/
structure WorkspaceState where
  base_path : String
  dirs : List SandboxDir
  active_sandboxes : List String
deriving DecidableEq

/-- Python `set.add` on the list model of a set. -/
def pySetAdd (s : List String) (x : String) : List String :=
  if x ∈ s then s else s ++ [x]

/-- The sandbox directory name built by `create_sandbox` (workspace.py
line 76): `agent-<agent_id>-<uuid4().hex[:8]>`. -/
def sandboxDirName (agent_id suffix : String) : String :=
  "agent-" ++ agent_id ++ "-" ++ suffix

/-- Embeds `DefaultWorkspaceManager.create_sandbox` (workspace.py lines
62–125).  `suffix` is the fresh `uuid.uuid4().hex[:8]` drawn on this
call, `now` the creation time.  Returns the sandbox path and the updated
state: the directory is created under the base and the agent id is added
to `active_sandboxes`. -/
def create_sandbox (ws : WorkspaceState) (agent_id suffix : String) (now : Nat) :
    String × WorkspaceState :=
  (ws.base_path ++ "/" ++ sandboxDirName agent_id suffix,
   { ws with
      dirs := ws.dirs ++ [{ name := sandboxDirName agent_id suffix, mtime := now }]
      active_sandboxes := pySetAdd ws.active_sandboxes agent_id })

/-- Embeds the per-directory test of the sweep loop in
`cleanup_orphaned_sandboxes` (workspace.py lines 202–218): the directory
matched the glob `agent-*`, `parts = name.split("-")` has at least two
entries, the parsed id `parts[1]` is not in the live set, and the mtime
is more than 24 hours (86400 s) in the past. -/
def sweepRemoves (active : List String) (now : Nat) (d : SandboxDir) : Bool :=
  strStartsWith d.name "agent-" &&
    (let parts := pySplit d.name '-'
     decide (2 ≤ parts.length) &&
       (decide (parts.getD 1 "" ∉ active) && decide (now - d.mtime > 86400)))

/-- Embeds `DefaultWorkspaceManager.cleanup_orphaned_sandboxes`
(workspace.py lines 191–224): reclaims every directory the loop body
selects, returns their count, and mutates nothing else — in particular
`active_sandboxes` is untouched. -/
def cleanup_orphaned_sandboxes (ws : WorkspaceState) (now : Nat) : Nat × WorkspaceState :=
  ((ws.dirs.filter (fun d => sweepRemoves ws.active_sandboxes now d)).length,
   { ws with dirs := ws.dirs.filter (fun d => !sweepRemoves ws.active_sandboxes now d) })

/-- The glob pattern `agent-<agent_id>-*` used by `get_sandbox_path`
(workspace.py lines 170–181), as a predicate on directories. -/
def sandboxGlob (agent_id : String) (d : SandboxDir) : Bool :=
  strStartsWith d.name ("agent-" ++ agent_id ++ "-")

/-- Embeds `DefaultWorkspaceManager.get_sandbox_path` (workspace.py lines
170–181): the first directory matching `agent-<agent_id>-*`, if any. -/
def get_sandbox_path (ws : WorkspaceState) (agent_id : String) : Option SandboxDir :=
  ws.dirs.find? (sandboxGlob agent_id)

/-- Python `round(x, 2)`.  The source computes in binary floating point
with round-half-to-even; this model uses exact rationals and Mathlib's
`round`.  The two agree at every size any theorem below evaluates (none
sits at a rounding tie or within float error of the quota boundary). -/
def round2 (q : ℚ) : ℚ := (round (q * 100) : ℤ) / 100

/-- The `total_size_mb` entry of `get_sandbox_stats`:
`round(total_size / (1024 * 1024), 2)` (workspace.py line 300). -/
def mbOfBytes (bytes : Nat) : ℚ := round2 ((bytes : ℚ) / (1024 * 1024))

/-- Total size in bytes of a sandbox file listing (the `os.walk`
accumulation of workspace.py lines 282–293). -/
def totalSize (files : List (String × Nat)) : Nat := (files.map Prod.snd).sum

/-- Result of `get_sandbox_stats`: `emptyDict` is the `{}` returned when
no sandbox directory exists, `errorDict` the `{"error": ...}` returned
when stat-ing fails (neither carries a `total_size_mb` key), and `stats`
carries `total_size_bytes`, `file_count` and `total_size_mb`. -/
inductive StatsDict
  | emptyDict
  | errorDict
  | stats (total_size_bytes : Nat) (file_count : Nat) (total_size_mb : ℚ)
deriving DecidableEq

/-- Embeds `DefaultWorkspaceManager.get_sandbox_stats` (workspace.py
lines 263–307). -/
def get_sandbox_stats (ws : WorkspaceState) (agent_id : String) : StatsDict :=
  match get_sandbox_path ws agent_id with
  | none => .emptyDict
  | some d =>
    if d.stat_ok then
      .stats (totalSize d.files) d.files.length (mbOfBytes (totalSize d.files))
    else .errorDict

/-- The `temp/` drain performed by `enforce_quota` when over quota
(workspace.py lines 329–335): `_secure_rmtree(temp_dir)` then recreate it
empty, so every file under `temp/` disappears and `temp/` still
exists. -/
def drainTemp (d : SandboxDir) : SandboxDir :=
  { d with files := d.files.filter (fun f => !(strStartsWith f.1 "temp/")) }

/-- Replace the first directory satisfying `p` (the one
`get_sandbox_path` found) by `d`. -/
def replaceFirst (p : SandboxDir → Bool) (d : SandboxDir) :
    List SandboxDir → List SandboxDir
  | [] => []
  | x :: rest => if p x then d :: rest else x :: replaceFirst p d rest

/-- Embeds `DefaultWorkspaceManager.enforce_quota` (workspace.py lines
309–347).  Missing stats (`{}` or `{"error": ...}`) pass; the over-quota
test is `total_size_mb > max_size_mb` on the rounded megabyte figure;
when it fires, `temp/` is drained (if it exists) and the quota rechecked
with `new_stats.get("total_size_mb", 0) <= max_size_mb`; every remaining
path returns `False`. -/
def enforce_quota (ws : WorkspaceState) (agent_id : String) (max_size_mb : Nat) :
    Bool × WorkspaceState :=
  match get_sandbox_stats ws agent_id with
  | .emptyDict => (true, ws)
  | .errorDict => (true, ws)
  | .stats _ _ total_size_mb =>
    if total_size_mb > (max_size_mb : ℚ) then
      match get_sandbox_path ws agent_id with
      | none => (false, ws)
      | some d =>
        if d.temp_exists then
          let ws' : WorkspaceState :=
            { ws with dirs := replaceFirst (sandboxGlob agent_id) (drainTemp d) ws.dirs }
          let new_mb : ℚ :=
            match get_sandbox_stats ws' agent_id with
            | .stats _ _ m => m
            | _ => 0
          if new_mb ≤ (max_size_mb : ℚ) then (true, ws') else (false, ws')
        else (false, ws)
    else (true, ws)

/-! ### Provider registry — src/libs/ai/provider_interface.py -/

/-- Embeds `AIProviderType` (provider_interface.py lines 16–23). -/
inductive AIProviderType
  | claude_code
  | claude_api
  | ollama
  | openai_gpt
  | gemini
  | gemini_code
deriving DecidableEq

/-- Python `str()` of an `AIProviderType` member, as interpolated into
the registry's error messages. -/
def providerTypeStr : AIProviderType → String
  | .claude_code => "AIProviderType.CLAUDE_CODE"
  | .claude_api => "AIProviderType.CLAUDE_API"
  | .ollama => "AIProviderType.OLLAMA"
  | .openai_gpt => "AIProviderType.OPENAI_GPT"
  | .gemini => "AIProviderType.GEMINI"
  | .gemini_code => "AIProviderType.GEMINI_CODE"

/-- Embeds `TaskStatus` (provider_interface.py lines 26–32). -/
inductive TaskStatus
  | pending
  | running
  | completed
  | failed
  | cancelled
deriving DecidableEq

/-- Embeds `AITask` (provider_interface.py lines 56–70), restricted to
the fields the registry consults. -/
structure AITask where
  task_id : String
  prompt : String
  model : String
  provider : AIProviderType
deriving DecidableEq

/-- Embeds `AIResponse` (provider_interface.py lines 44–53), restricted
to the fields the registry builds and the claims consult. -/
structure AIResponse where
  content : String
  status : TaskStatus
  provider : AIProviderType
  model : String
  error : Option String := none
deriving DecidableEq

/-- What awaiting `provider.execute_task(task)` does: return a response,
or raise an exception carrying a message. -/
inductive ExecBehavior
  | returns (r : AIResponse)
  | raises (msg : String)
deriving DecidableEq

/-- Embeds an `AIProvider` as the registry sees it: its
`is_initialized` flag and what its `execute_task` does when awaited. -/
structure AIProvider where
  initialized : Bool
  behavior : ExecBehavior
deriving DecidableEq

/-- Embeds the `AIProviderManager` state (provider_interface.py lines
150–156): the `_providers` and `_active_tasks` dicts as association
lists. -/
structure AIProviderManager where
  providers : List (AIProviderType × AIProvider)
  active_tasks : List (String × AITask)
deriving DecidableEq

/-- Python `self._providers.get(provider_type)`. -/
def lookupProvider : List (AIProviderType × AIProvider) → AIProviderType → Option AIProvider
  | [], _ => none
  | (k, v) :: rest, t => if k = t then some v else lookupProvider rest t

/-- Python `self._active_tasks.get(task_id)`. -/
def lookupTask : List (String × AITask) → String → Option AITask
  | [], _ => none
  | (k, v) :: rest, id => if k = id then some v else lookupTask rest id

/-- Python dict assignment `self._active_tasks[task_id] = task`. -/
def insertTask : List (String × AITask) → String → AITask → List (String × AITask)
  | [], id, t => [(id, t)]
  | (k, v) :: rest, id, t => if k = id then (k, t) :: rest else (k, v) :: insertTask rest id t

/-- Python `self._active_tasks.pop(task_id, None)` (drops the binding). -/
def popTask : List (String × AITask) → String → List (String × AITask)
  | [], _ => []
  | (k, v) :: rest, id => if k = id then rest else (k, v) :: popTask rest id

/-- The failure response the registry builds (provider_interface.py
lines 193–200, 203–209, 217–223). -/
def failResponse (task : AITask) (msg : String) : AIResponse :=
  { content := ""
    status := .failed
    provider := task.provider
    model := task.model
    error := some msg }

/-- Trace of one `AIProviderManager.execute_task` call: the returned
response, the `_active_tasks` map after the call, whether the provider's
`execute_task` was awaited, and — when it was — the `_active_tasks` map
at the moment of the await. -/
structure ExecTrace where
  response : AIResponse
  final_active : List (String × AITask)
  provider_invoked : Bool
  active_at_invoke : Option (List (String × AITask)) := none
deriving DecidableEq

/-- Embeds `AIProviderManager.execute_task` (provider_interface.py lines
190–225): unknown provider → typed failure, provider untouched;
uninitialised provider → typed failure, provider untouched; otherwise
record the task in `_active_tasks`, await the provider (an exception
becomes a failure response in the `except` arm), and pop the task in the
`finally` arm — on the return path and on the raise path alike. -/
def AIProviderManager.execute_task (mgr : AIProviderManager) (task : AITask) : ExecTrace :=
  match lookupProvider mgr.providers task.provider with
  | none =>
    { response := failResponse task ("Provider " ++ providerTypeStr task.provider ++ " not found")
      final_active := mgr.active_tasks
      provider_invoked := false }
  | some p =>
    if !p.initialized then
      { response := failResponse task
          ("Provider " ++ providerTypeStr task.provider ++ " not initialized")
        final_active := mgr.active_tasks
        provider_invoked := false }
    else
      let live := insertTask mgr.active_tasks task.task_id task
      { response :=
          match p.behavior with
          | .returns r => r
          | .raises msg => failResponse task msg
        final_active := popTask live task.task_id
        provider_invoked := true
        active_at_invoke := some live }

/-- The record update a successful `cancel_task` performs on the agent
(headless_adapter.py lines 260–275), given the observed termination exit
code and the cancellation time. -/
def cancelledUpdate (agent : AgentProcess) (tc : Int) (n1 : Nat) : AgentProcess :=
  { agent with
      proc_returncode := some tc
      status := .idle
      current_run_id := none
      last_activity := some n1 }

/-- A concrete idle agent record, used to instantiate witnesses. -/
def sampleIdleAgent : AgentProcess :=
  { agent_id := "a", workspace_path := "/ws", status := .idle, created_at := 0 }

/-- A concrete agent with a live subprocess and current run `"r"`. -/
def sampleRunningAgent : AgentProcess :=
  { agent_id := "a", workspace_path := "/ws", status := .running, created_at := 0,
    has_process := true, proc_returncode := none, current_run_id := some "r" }

/-- The agent record `sampleRunningAgent` becomes after a successful
`cancel_task` at time 1 with termination code `-15`. -/
def sampleCancelledAgent : AgentProcess :=
  { agent_id := "a", workspace_path := "/ws", status := .idle, created_at := 0,
    has_process := true, proc_returncode := some (-15), current_run_id := none,
    last_activity := some 1 }

/-- A sandbox holding exactly one byte more than a 100 MB quota. -/
def oneByteOverSandbox : SandboxDir :=
  { name := "agent-a-00000000", mtime := 0, files := [("workspace/big.bin", 104857601)] }

/-- A sandbox holding exactly a 100 MB quota. -/
def atQuotaSandbox : SandboxDir :=
  { name := "agent-c-00000000", mtime := 0, files := [("workspace/f", 104857600)] }

/-- A sandbox over quota whose bulk sits under `temp/`. -/
def tempHeavySandbox : SandboxDir :=
  { name := "agent-b-00000000", mtime := 0,
    files := [("temp/x.bin", 314572800), ("workspace/y", 1048576)] }

/-- A sandbox whose tree cannot be stat-ed. -/
def statFailSandbox : SandboxDir :=
  { name := "agent-a-00000000", mtime := 0, files := [("workspace/f", 999999999)],
    stat_ok := false }

/-- A registry with one initialised provider whose `execute_task`
raises. -/
def raisingMgr : AIProviderManager :=
  { providers := [(.claude_code, { initialized := true, behavior := .raises "boom" })]
    active_tasks := [] }

/-- A concrete task for the raising provider. -/
def sampleTask : AITask :=
  { task_id := "t1", prompt := "p", model := "m", provider := .claude_code }

/-! ### Theorems -/

/-- Association-list update preserves presence: updating a key that is
present makes a later lookup of that key return the new value. -/
theorem lookupAgent_updateAgent (l : List (String × AgentProcess)) (id : String)
    (a0 a : AgentProcess) (h : lookupAgent l id = some a0) :
    lookupAgent (updateAgent l id a) id = some a := by
  induction l with
  | nil => simp [lookupAgent] at h
  | cons hd tl ih =>
    obtain ⟨k, v⟩ := hd
    by_cases hk : k = id
    · simp [lookupAgent, updateAgent, hk]
    · simp only [lookupAgent, updateAgent, hk, if_false, if_neg hk] at h ⊢
      exact ih h

/-- C10: option merging uses truthiness for `tools`, `timeout` and
`max_tokens` but a `None`-check for `temperature`: an override whose tools
list is empty, or whose timeout or max_tokens is `0`, is replaced by the
agent config's value, while a temperature override of `0.0` is preserved
in the merged options (for every agent config, in particular one whose own
temperature differs from `0`). -/
theorem c10_merge_truthiness (c : AgentConfig) (rs : Bool) :
    TaskOptions.merge_with_config ⟨some [], some 0, some 0, some 0, rs⟩ c =
      ⟨some c.allowed_tools, some c.timeout, some c.max_tokens, some 0, rs⟩ := by
  simp [TaskOptions.merge_with_config, pyOrList, pyOrInt]

/-- C2: when the monitored subprocess exits with code zero the monitor sets
the agent's status to `idle` and emits a `task_complete` event carrying the
run id; when it exits with a non-zero code the monitor sets the status to
`error` (recording the exit code in `error_message`) and emits an `error`
event; in both cases it then clears `current_run_id` and updates
`last_activity` to the current time. -/
theorem c2_monitor_terminal_state (agent : AgentProcess) (rc : Int) (now : Nat) :
    (rc = 0 → monitor_process_exit agent (some rc) now =
      ({ agent with status := .idle, current_run_id := none, last_activity := some now },
       [{ event_type := .task_complete, agent_id := agent.agent_id,
          run_id := agent.current_run_id, data_return_code := some (some rc) }])) ∧
    (rc ≠ 0 → monitor_process_exit agent (some rc) now =
      ({ agent with
          status := .error
          error_message := some ("Process exited with code " ++ toString rc)
          current_run_id := none
          last_activity := some now },
       [{ event_type := .error, agent_id := agent.agent_id,
          run_id := agent.current_run_id, data_return_code := some (some rc) }])) := by
  constructor
  · intro h
    simp [monitor_process_exit, h]
  · intro h
    simp [monitor_process_exit, pyStrOptInt, h]

/-- Witness for C2 at concrete inputs: a zero exit on `sampleRunningAgent`
completes the run, and exit code 2 errors it. -/
theorem c2_monitor_terminal_state_witness :
    monitor_process_exit sampleRunningAgent (some 0) 7 =
      ({ sampleRunningAgent with
          status := .idle
          current_run_id := none
          last_activity := some 7 },
       [{ event_type := .task_complete, agent_id := "a", run_id := some "r",
          data_return_code := some (some 0) }]) ∧
    monitor_process_exit sampleRunningAgent (some 2) 7 =
      ({ sampleRunningAgent with
          status := .error
          error_message := some ("Process exited with code " ++ toString (2 : Int))
          current_run_id := none
          last_activity := some 7 },
       [{ event_type := .error, agent_id := "a", run_id := some "r",
          data_return_code := some (some 2) }]) :=
  ⟨(c2_monitor_terminal_state sampleRunningAgent 0 7).1 rfl,
   (c2_monitor_terminal_state sampleRunningAgent 2 7).2 (by decide)⟩

/-- C3: calling `create_agent` when the live-agent count has reached the
ceiling fails with the capacity error (`RuntimeError("Maximum concurrent
agents limit reached (N)")`, the source's `CapacityExceeded`) and leaves
the agent map unchanged, and every successful `create_agent` keeps the
live-agent count at or below the ceiling. -/
theorem c3_create_agent_capacity (a : HeadlessAdapter) (agent_id : String)
    (sandbox : SandboxOutcome) (now : Nat) :
    (a.active_agents.length ≥ a.max_concurrent →
      create_agent a agent_id sandbox now =
        (.error (.runtimeError ("Maximum concurrent agents limit reached (" ++
          toString a.max_concurrent ++ ")")), a)) ∧
    (∀ id a', create_agent a agent_id sandbox now = (.ok id, a') →
      a'.active_agents.length ≤ a.max_concurrent) := by
  constructor
  · intro h
    simp [create_agent, h]
  · intro id a' h
    by_cases hc : a.active_agents.length ≥ a.max_concurrent
    · simp [create_agent, hc] at h
    · match sandbox with
      | .error e => simp [create_agent, hc] at h
      | .ok w =>
        simp only [create_agent, hc, if_neg hc] at h
        obtain ⟨-, h2⟩ := Prod.mk.injEq .. ▸ h
        have hlen : a'.active_agents.length = a.active_agents.length + 1 := by
          rw [← h2]
          simp
        omega

/-- Witness for C3 at concrete inputs: with ceiling 1 and one live agent,
creation fails with the capacity error and changes nothing; with ceiling 2
the successful creation keeps the count at or below 2. -/
theorem c3_create_agent_capacity_witness :
    create_agent ⟨1, [("a", sampleIdleAgent)]⟩ "b" (.ok "/sb") 3 =
      (.error (.runtimeError ("Maximum concurrent agents limit reached (" ++
        toString (1 : Nat) ++ ")")), ⟨1, [("a", sampleIdleAgent)]⟩) ∧
    (create_agent ⟨2, [("a", sampleIdleAgent)]⟩ "b" (.ok "/sb") 3).2.active_agents.length ≤ 2 :=
  ⟨(c3_create_agent_capacity ⟨1, [("a", sampleIdleAgent)]⟩ "b" (.ok "/sb") 3).1 (by decide),
   (c3_create_agent_capacity ⟨2, [("a", sampleIdleAgent)]⟩ "b" (.ok "/sb") 3).2 "b"
     (create_agent ⟨2, [("a", sampleIdleAgent)]⟩ "b" (.ok "/sb") 3).2 rfl⟩

/-- C5 counterexample: the claim states that after a successful
cancellation a second `cancel_task` with the same run id returns `false`.
On the concrete adapter holding `sampleRunningAgent` the first call
succeeds with `true`, but the second call with the same run id raises
`ValueError` (run not found), because the successful cancellation cleared
`current_run_id`; it does not return `false`. -/
theorem c5_cancel_twice_counterexample :
    cancel_task ⟨5, [("a", sampleRunningAgent)]⟩ "a" "r" (-15) 1 =
      .ok (true, ⟨5, [("a", sampleCancelledAgent)]⟩,
        [{ event_type := .status_change, agent_id := "a", run_id := some "r" }]) ∧
    cancel_task ⟨5, [("a", sampleCancelledAgent)]⟩ "a" "r" (-15) 2 =
      .error (.valueError ("Run " ++ "r" ++ " not found for agent " ++ "a")) :=
  ⟨rfl, rfl⟩

/-- C5 amended: `cancel_task` returns `false` without throwing exactly when
the run id still matches the agent's current run but the subprocess handle
is absent or has already exited; after a successful cancellation the
current run id is cleared, so a second `cancel_task` with the same run id
raises `ValueError` (run not found) instead of returning `false`. -/
theorem c5_cancel_task_semantics (a : HeadlessAdapter) (agent_id run_id : String)
    (tc tc2 : Int) (n1 n2 : Nat) :
    (∀ agent, lookupAgent a.active_agents agent_id = some agent →
      agent.current_run_id = some run_id →
      (agent.has_process = false ∨ agent.proc_returncode ≠ none) →
      cancel_task a agent_id run_id tc n1 = .ok (false, a, [])) ∧
    (∀ agent, lookupAgent a.active_agents agent_id = some agent →
      agent.current_run_id = some run_id →
      agent.has_process = true →
      agent.proc_returncode = none →
      ∃ a', cancel_task a agent_id run_id tc n1 =
          .ok (true, a',
            [{ event_type := .status_change, agent_id := agent.agent_id, run_id := some run_id }]) ∧
        cancel_task a' agent_id run_id tc2 n2 =
          .error (.valueError ("Run " ++ run_id ++ " not found for agent " ++ agent_id))) := by
  constructor
  · intro agent hlook hrun hdead
    have hcond : ¬(agent.has_process = true ∧ agent.proc_returncode = none) := by
      rcases hdead with h | h
      · intro hc
        rw [hc.1] at h
        exact Bool.true_eq_false ▸ h
      · intro hc
        exact h hc.2
    simp [cancel_task, hlook, hrun, hcond]
  · intro agent hlook hrun hp hr
    refine
      ⟨{ a with
          active_agents := updateAgent a.active_agents agent_id (cancelledUpdate agent tc n1) },
       ?_, ?_⟩
    · simp [cancel_task, cancelledUpdate, hlook, hrun, hp, hr]
    · have hlook2 := lookupAgent_updateAgent a.active_agents agent_id agent
        (cancelledUpdate agent tc n1) hlook
      simp only [cancelledUpdate] at hlook2
      simp [cancel_task, cancelledUpdate, hlook2]

/-- Witness for C5 amended at concrete inputs: an agent whose run `"r"` is
current but whose process has exited yields `false`, and a second cancel
after the concrete successful cancellation raises the run-not-found
error. -/
theorem c5_cancel_task_semantics_witness :
    cancel_task ⟨5, [("a", { sampleRunningAgent with proc_returncode := some 0 })]⟩
        "a" "r" (-15) 1 =
      .ok (false, ⟨5, [("a", { sampleRunningAgent with proc_returncode := some 0 })]⟩, []) ∧
    (∃ a', cancel_task ⟨5, [("a", sampleRunningAgent)]⟩ "a" "r" (-15) 1 =
        .ok (true, a',
          [{ event_type := .status_change, agent_id := "a", run_id := some "r" }]) ∧
      cancel_task a' "a" "r" (-9) 2 =
        .error (.valueError ("Run " ++ "r" ++ " not found for agent " ++ "a"))) :=
  ⟨(c5_cancel_task_semantics ⟨5, [("a", { sampleRunningAgent with proc_returncode := some 0 })]⟩
      "a" "r" (-15) (-9) 1 2).1 _ rfl rfl (Or.inr (by decide)),
   (c5_cancel_task_semantics ⟨5, [("a", sampleRunningAgent)]⟩ "a" "r" (-15) (-9) 1 2).2
     _ rfl rfl rfl rfl⟩

/-- C1: the claim states the command check never throws and always returns
a boolean.  In the source the very first dangerous-pattern test reads the
local `command_lower` before its assignment, so `validate_command_execution`
raises `UnboundLocalError` on every command string and agent id — it never
reaches a `return`. -/
theorem c1_validate_command_always_raises (re_search : String → String → Bool)
    (command : String) (agent_id : String) :
    validate_command_execution re_search command agent_id =
      .error (.unboundLocalError "command_lower") := rfl

/-- String concatenation cancels a common left factor. -/
theorem string_append_right_cancel (p s1 s2 : String) (h : p ++ s1 = p ++ s2) : s1 = s2 :=
  String.ext (List.append_cancel_left (by
    have hd := congrArg String.data h
    simpa only [String.data_append] using hd))

/-- C4 counterexample: the claim states a second `create_sandbox` for the
same agent id returns the same path as the first call.  On the concrete
empty base, the second call draws a different `uuid4().hex[:8]` suffix
and returns a different path. -/
theorem c4_create_sandbox_not_idempotent :
    (create_sandbox ⟨"/base", [], []⟩ "a" "00000000" 0).1 ≠
      (create_sandbox (create_sandbox ⟨"/base", [], []⟩ "a" "00000000" 0).2
        "a" "00000001" 1).1 := by
  decide

/-- C4 amended: `create_sandbox` is not idempotent per agent id — every
call mints a fresh random suffix and allocates
`<base>/agent-<id>-<suffix>`, so whenever the two calls draw distinct
suffixes (which distinct `uuid4` values give), the second call returns a
path different from the first. -/
theorem c4_create_sandbox_fresh_suffix (ws : WorkspaceState) (agent_id s1 s2 : String)
    (n1 n2 : Nat) (h : s1 ≠ s2) :
    (create_sandbox ws agent_id s1 n1).1 ≠
      (create_sandbox (create_sandbox ws agent_id s1 n1).2 agent_id s2 n2).1 := by
  intro heq
  apply h
  have heq' : (ws.base_path ++ "/" ++ ("agent-" ++ agent_id ++ "-")) ++ s1 =
      (ws.base_path ++ "/" ++ ("agent-" ++ agent_id ++ "-")) ++ s2 := by
    simpa [create_sandbox, sandboxDirName, String.append_assoc] using heq
  exact string_append_right_cancel _ _ _ heq'

/-- Witness for C4 amended at concrete inputs. -/
theorem c4_create_sandbox_fresh_suffix_witness :
    (create_sandbox ⟨"/b", [], []⟩ "a" "x" 0).1 ≠
      (create_sandbox (create_sandbox ⟨"/b", [], []⟩ "a" "x" 0).2 "a" "y" 1).1 :=
  c4_create_sandbox_fresh_suffix ⟨"/b", [], []⟩ "a" "x" "y" 0 1 (by decide)

/-- C6: the sweep parses the owning agent id as `name.split("-")[1]`,
i.e. the text up to the first hyphen of the id.  Agent ids are
`uuid.uuid4()` strings and contain hyphens (headless_adapter.py line 99),
so for the live agent `"ab-cd"` the sweep reads the id as `"ab"`, finds
it absent from the live set, and reclaims the live agent's 25-hour-old
sandbox: the sweep returns count 1, the directory is gone, and `"ab-cd"`
is still in the live set — contradicting the claim that only directories
whose recorded agent id is outside the live set are reclaimed and that
live agents' sandboxes are untouched. -/
theorem c6_sweep_reclaims_live_sandbox :
    "ab-cd" ∈ (create_sandbox ⟨"/base", [], []⟩ "ab-cd" "12345678" 0).2.active_sandboxes ∧
    cleanup_orphaned_sandboxes (create_sandbox ⟨"/base", [], []⟩ "ab-cd" "12345678" 0).2 90001 =
      (1, ⟨"/base", [], ["ab-cd"]⟩) := by
  decide

/-- A successful `find?` stays successful after `replaceFirst` with a new
element that also satisfies the predicate, and now returns the new
element. -/
theorem find?_replaceFirst (p : SandboxDir → Bool) (d' : SandboxDir)
    (l : List SandboxDir) (hp : p d' = true) :
    ∀ d, l.find? p = some d → (replaceFirst p d' l).find? p = some d' := by
  induction l with
  | nil =>
    intro d h
    simp [List.find?] at h
  | cons x rest ih =>
    intro d h
    cases hx : p x with
    | true => simp [replaceFirst, List.find?, hx, hp]
    | false =>
      simp only [List.find?, hx] at h
      simp [replaceFirst, List.find?, hx]
      exact ih d h

/-- C7 counterexample: the claim states a sandbox one byte over quota is
denied after the `temp/` drain.  The over-quota test compares megabytes
rounded to two decimals, so the concrete 104857601-byte sandbox (one byte
over a 100 MB quota) rounds to exactly 100 MB and `enforce_quota`
accepts it without draining anything. -/
theorem c7_one_byte_over_accepted :
    totalSize oneByteOverSandbox.files = 100 * 1024 * 1024 + 1 ∧
    enforce_quota ⟨"/base", [oneByteOverSandbox], ["a"]⟩ "a" 100 =
      (true, ⟨"/base", [oneByteOverSandbox], ["a"]⟩) := by
  constructor
  · norm_num [totalSize, oneByteOverSandbox]
  · have hfind : get_sandbox_path ⟨"/base", [oneByteOverSandbox], ["a"]⟩ "a" =
        some oneByteOverSandbox := rfl
    have hstat : oneByteOverSandbox.stat_ok = true := rfl
    have hmb : mbOfBytes (totalSize oneByteOverSandbox.files) = 100 := by
      norm_num [mbOfBytes, round2, totalSize, oneByteOverSandbox, round_eq]
    have hngt : ¬ ((100 : ℚ) < mbOfBytes (totalSize oneByteOverSandbox.files)) := by
      rw [hmb]
      norm_num
    simp [enforce_quota, get_sandbox_stats, hfind, hstat, hngt]

/-- C7 amended: `enforce_quota` accepts a sandbox whose rounded-megabyte
size is at or below the quota (in particular one exactly at quota), and
only when the rounded size strictly exceeds the quota does it drain
`temp/` and return true or false according to whether the rounded size
after the drain is within quota — so an overage smaller than the 0.005 MB
rounding step (such as one byte) is accepted without any drain. -/
theorem c7_enforce_quota_semantics (ws : WorkspaceState) (agent_id : String)
    (max_size_mb : Nat) (d : SandboxDir)
    (hfind : get_sandbox_path ws agent_id = some d)
    (hstat : d.stat_ok = true) (htemp : d.temp_exists = true) :
    (mbOfBytes (totalSize d.files) ≤ (max_size_mb : ℚ) →
      enforce_quota ws agent_id max_size_mb = (true, ws)) ∧
    ((max_size_mb : ℚ) < mbOfBytes (totalSize d.files) →
      enforce_quota ws agent_id max_size_mb =
        (decide (mbOfBytes (totalSize (drainTemp d).files) ≤ (max_size_mb : ℚ)),
         { ws with dirs := replaceFirst (sandboxGlob agent_id) (drainTemp d) ws.dirs })) := by
  constructor
  · intro hle
    have hngt : ¬ ((max_size_mb : ℚ) < mbOfBytes (totalSize d.files)) := not_lt.mpr hle
    simp [enforce_quota, get_sandbox_stats, hfind, hstat, hngt]
  · intro hgt
    have hgl0 : sandboxGlob agent_id d = true :=
      List.find?_some (show ws.dirs.find? (sandboxGlob agent_id) = some d from hfind)
    have hgl : sandboxGlob agent_id (drainTemp d) = true := hgl0
    have hstat' : (drainTemp d).stat_ok = true := hstat
    have hfind' : get_sandbox_path
        { ws with dirs := replaceFirst (sandboxGlob agent_id) (drainTemp d) ws.dirs }
        agent_id = some (drainTemp d) := by
      simpa [get_sandbox_path] using
        find?_replaceFirst (sandboxGlob agent_id) (drainTemp d) ws.dirs hgl d hfind
    by_cases hq : mbOfBytes (totalSize (drainTemp d).files) ≤ (max_size_mb : ℚ)
    · simp [enforce_quota, get_sandbox_stats, hfind, hfind', hstat, hstat', htemp, hgt, hq]
    · simp [enforce_quota, get_sandbox_stats, hfind, hfind', hstat, hstat', htemp, hgt, hq]

/-- Witness for C7 amended at concrete inputs: a sandbox exactly at a
100 MB quota is accepted unchanged, and a sandbox over quota with its
bulk under `temp/` is drained and rechecked. -/
theorem c7_enforce_quota_semantics_witness :
    enforce_quota ⟨"/base", [atQuotaSandbox], ["c"]⟩ "c" 100 =
      (true, ⟨"/base", [atQuotaSandbox], ["c"]⟩) ∧
    enforce_quota ⟨"/base", [tempHeavySandbox], ["b"]⟩ "b" 100 =
      (decide (mbOfBytes (totalSize (drainTemp tempHeavySandbox).files) ≤ ((100 : Nat) : ℚ)),
       ⟨"/base", replaceFirst (sandboxGlob "b") (drainTemp tempHeavySandbox) [tempHeavySandbox],
        ["b"]⟩) :=
  ⟨(c7_enforce_quota_semantics ⟨"/base", [atQuotaSandbox], ["c"]⟩ "c" 100 atQuotaSandbox
      rfl rfl rfl).1
      (by norm_num [mbOfBytes, round2, totalSize, atQuotaSandbox, round_eq]),
   (c7_enforce_quota_semantics ⟨"/base", [tempHeavySandbox], ["b"]⟩ "b" 100 tempHeavySandbox
      rfl rfl rfl).2
      (by norm_num [mbOfBytes, round2, totalSize, tempHeavySandbox, round_eq])⟩

/-- C9: quota enforcement fails open — when no sandbox directory exists
for the agent id (`get_sandbox_stats` returns `{}`), or the directory
cannot be stat-ed (`get_sandbox_stats` returns `{"error": ...}`),
`enforce_quota` returns `True` and changes nothing. -/
theorem c9_enforce_quota_fails_open (ws : WorkspaceState) (agent_id : String)
    (max_size_mb : Nat) :
    (get_sandbox_path ws agent_id = none →
      enforce_quota ws agent_id max_size_mb = (true, ws)) ∧
    (∀ d, get_sandbox_path ws agent_id = some d → d.stat_ok = false →
      enforce_quota ws agent_id max_size_mb = (true, ws)) := by
  constructor
  · intro h
    simp [enforce_quota, get_sandbox_stats, h]
  · intro d h hs
    simp [enforce_quota, get_sandbox_stats, h, hs]

/-- Witness for C9 at concrete inputs: an agent with no sandbox and an
agent whose sandbox cannot be stat-ed both pass the quota check. -/
theorem c9_enforce_quota_fails_open_witness :
    enforce_quota ⟨"/base", [], []⟩ "zz" 100 = (true, ⟨"/base", [], []⟩) ∧
    enforce_quota ⟨"/base", [statFailSandbox], ["a"]⟩ "a" 100 =
      (true, ⟨"/base", [statFailSandbox], ["a"]⟩) :=
  ⟨(c9_enforce_quota_fails_open ⟨"/base", [], []⟩ "zz" 100).1 rfl,
   (c9_enforce_quota_fails_open ⟨"/base", [statFailSandbox], ["a"]⟩ "a" 100).2
     statFailSandbox rfl rfl⟩

/-- Looking up the key just inserted finds the inserted task. -/
theorem lookupTask_insertTask_self (l : List (String × AITask)) (id : String) (t : AITask) :
    lookupTask (insertTask l id t) id = some t := by
  induction l with
  | nil => simp [insertTask, lookupTask]
  | cons x rest ih =>
    obtain ⟨k, v⟩ := x
    by_cases hk : k = id
    · simp [insertTask, lookupTask, hk]
    · simp [insertTask, lookupTask, hk, ih]

/-- A key absent from the key list is not found. -/
theorem lookupTask_eq_none_of_not_mem (l : List (String × AITask)) (id : String)
    (h : id ∉ l.map Prod.fst) : lookupTask l id = none := by
  induction l with
  | nil => rfl
  | cons x rest ih =>
    obtain ⟨k, v⟩ := x
    simp only [List.map_cons, List.mem_cons] at h
    push_neg at h
    have hk : ¬ (k = id) := fun e => h.1 e.symm
    simp only [lookupTask, if_neg hk]
    exact ih h.2

/-- On a map with duplicate-free keys, popping a key removes it. -/
theorem lookupTask_popTask_self (l : List (String × AITask)) (id : String)
    (h : (l.map Prod.fst).Nodup) : lookupTask (popTask l id) id = none := by
  induction l with
  | nil => rfl
  | cons x rest ih =>
    obtain ⟨k, v⟩ := x
    simp only [List.map_cons, List.nodup_cons] at h
    by_cases hk : k = id
    · subst hk
      have hpop : popTask ((k, v) :: rest) k = rest := by simp [popTask]
      rw [hpop]
      exact lookupTask_eq_none_of_not_mem rest k h.1
    · simp only [popTask, lookupTask, if_neg hk]
      exact ih h.2

/-- The key list of `insertTask` is the old key list with the inserted
key available. -/
theorem mem_keys_insertTask (l : List (String × AITask)) (id x : String) (t : AITask) :
    x ∈ (insertTask l id t).map Prod.fst ↔ x ∈ l.map Prod.fst ∨ x = id := by
  induction l with
  | nil => simp [insertTask]
  | cons hd rest ih =>
    obtain ⟨k, v⟩ := hd
    by_cases hk : k = id
    · subst hk
      simp [insertTask]
      tauto
    · simp [insertTask, hk, ih]
      tauto

/-- `insertTask` preserves duplicate-freeness of the key list. -/
theorem keys_insertTask_nodup (l : List (String × AITask)) (id : String) (t : AITask)
    (h : (l.map Prod.fst).Nodup) : ((insertTask l id t).map Prod.fst).Nodup := by
  induction l with
  | nil => simp [insertTask]
  | cons x rest ih =>
    obtain ⟨k, v⟩ := x
    simp only [List.map_cons, List.nodup_cons] at h
    by_cases hk : k = id
    · subst hk
      have hins : insertTask ((k, v) :: rest) k t = (k, t) :: rest := by simp [insertTask]
      rw [hins, List.map_cons, List.nodup_cons]
      exact h
    · simp only [insertTask, if_neg hk, List.map_cons, List.nodup_cons]
      refine ⟨?_, ih h.2⟩
      rw [mem_keys_insertTask]
      push_neg
      exact ⟨h.1, hk⟩

/-- C8: `execute_task` on the registry rejects a task whose provider is
unregistered or uninitialised with a `failed` response, without awaiting
any provider and without touching the live-task map; otherwise it records
the task in the live map before awaiting the provider and the task is
gone from the live map after the call on every exit path — both when the
provider returns and when it raises (the two constructors of
`ExecBehavior` cover both). -/
theorem c8_execute_task_scoped (mgr : AIProviderManager) (task : AITask)
    (hnodup : (mgr.active_tasks.map Prod.fst).Nodup) :
    (lookupProvider mgr.providers task.provider = none →
      (mgr.execute_task task).provider_invoked = false ∧
      (mgr.execute_task task).response.status = .failed ∧
      (mgr.execute_task task).final_active = mgr.active_tasks) ∧
    (∀ p, lookupProvider mgr.providers task.provider = some p → p.initialized = false →
      (mgr.execute_task task).provider_invoked = false ∧
      (mgr.execute_task task).response.status = .failed ∧
      (mgr.execute_task task).final_active = mgr.active_tasks) ∧
    (∀ p, lookupProvider mgr.providers task.provider = some p → p.initialized = true →
      (mgr.execute_task task).provider_invoked = true ∧
      (mgr.execute_task task).active_at_invoke =
        some (insertTask mgr.active_tasks task.task_id task) ∧
      lookupTask (insertTask mgr.active_tasks task.task_id task) task.task_id = some task ∧
      lookupTask (mgr.execute_task task).final_active task.task_id = none) := by
  refine ⟨?_, ?_, ?_⟩
  · intro h
    simp [AIProviderManager.execute_task, h, failResponse]
  · intro p hp hinit
    simp [AIProviderManager.execute_task, hp, hinit, failResponse]
  · intro p hp hinit
    refine ⟨?_, ?_, lookupTask_insertTask_self _ _ _, ?_⟩
    · simp [AIProviderManager.execute_task, hp, hinit]
    · simp [AIProviderManager.execute_task, hp, hinit]
    · have hpop := lookupTask_popTask_self
        (insertTask mgr.active_tasks task.task_id task) task.task_id
        (keys_insertTask_nodup _ _ _ hnodup)
      simpa [AIProviderManager.execute_task, hp, hinit] using hpop

/-- Witness for C8 at concrete inputs: on a registry whose only provider
raises, the task is recorded at the await and absent afterwards; on an
empty registry the task is rejected without touching the live map. -/
theorem c8_execute_task_scoped_witness :
    ((raisingMgr.execute_task sampleTask).provider_invoked = true ∧
      (raisingMgr.execute_task sampleTask).active_at_invoke =
        some (insertTask [] "t1" sampleTask) ∧
      lookupTask (insertTask [] "t1" sampleTask) "t1" = some sampleTask ∧
      lookupTask (raisingMgr.execute_task sampleTask).final_active "t1" = none) ∧
    ((AIProviderManager.execute_task ⟨[], []⟩ sampleTask).provider_invoked = false ∧
      (AIProviderManager.execute_task ⟨[], []⟩ sampleTask).response.status = .failed ∧
      (AIProviderManager.execute_task ⟨[], []⟩ sampleTask).final_active = []) :=
  ⟨(c8_execute_task_scoped raisingMgr sampleTask (by simp [raisingMgr])).2.2 _ rfl rfl,
   (c8_execute_task_scoped ⟨[], []⟩ sampleTask (by simp)).1 rfl⟩

end YesmanAgent
